import Mathlib

/-!
Verification of the og-task-grype worker against its specification.

The Go sources are shallowly embedded: byte strings are `List Nat`
(each entry a byte value), registry hosts and file names are `String`,
effectful calls (registry fetches, the grype subprocess, queue
publishes) are abstracted as explicit inputs or event traces.
-/

namespace OgTaskGrype

/-! ## Base64 (model of Go `encoding/base64` StdEncoding)

The repository stores registry credentials base64-encoded
(`getGHCRAuth` in the historical CLI variant) and decodes them in
`credentialsFunc` (`worker/fetch-image.go`).  The Go standard library
codec is modelled here over byte lists; 61 is the code of the padding
character and 58 the code of the colon. -/

/-- Byte values of the standard base64 alphabet, in order. -/
def b64Codes : List Nat :=
  (List.range 26).map (fun i => i + 65) ++
  (List.range 26).map (fun i => i + 97) ++
  (List.range 10).map (fun i => i + 48) ++ [43, 47]

/-- Alphabet byte for a sextet value. -/
def b64Code (n : Nat) : Nat := b64Codes.getD n 0

/-- Sextet value of an alphabet byte, if it is one. -/
def b64Idx (c : Nat) : Option Nat :=
  let i := b64Codes.indexOf c
  if i < 64 then some i else none

/-- Standard base64 encoding of a byte list (with padding). -/
def b64Encode : List Nat → List Nat
  | [] => []
  | [a] => [b64Code (a / 4), b64Code (a % 4 * 16), 61, 61]
  | [a, b] => [b64Code (a / 4), b64Code (a % 4 * 16 + b / 16), b64Code (b % 16 * 4), 61]
  | a :: b :: d :: rest =>
    b64Code (a / 4) :: b64Code (a % 4 * 16 + b / 16) ::
    b64Code (b % 16 * 4 + d / 64) :: b64Code (d % 64) :: b64Encode rest

/-- Standard base64 decoding of a byte list; `none` on malformed input. -/
def b64Decode : List Nat → Option (List Nat)
  | [] => some []
  | c1 :: c2 :: c3 :: c4 :: rest =>
    match b64Idx c1, b64Idx c2 with
    | some i1, some i2 =>
      if c3 = 61 ∧ c4 = 61 ∧ rest = [] then
        some [i1 * 4 + i2 / 16]
      else
        match b64Idx c3 with
        | some i3 =>
          if c4 = 61 ∧ rest = [] then
            some [i1 * 4 + i2 / 16, i2 % 16 * 16 + i3 / 4]
          else
            match b64Idx c4 with
            | some i4 =>
              (b64Decode rest).map
                (fun l => (i1 * 4 + i2 / 16) :: (i2 % 16 * 16 + i3 / 4) :: (i3 % 4 * 64 + i4) :: l)
            | none => none
        | none => none
    | _, _ => none
  | _ => none

theorem b64Idx_b64Code : ∀ n, n < 64 → b64Idx (b64Code n) = some n := by decide

theorem b64Code_ne_pad : ∀ n, n < 64 → b64Code n ≠ 61 := by decide

/-- Decoding inverts encoding on genuine byte lists. -/
theorem b64_roundtrip : ∀ l : List Nat, (∀ b ∈ l, b < 256) → b64Decode (b64Encode l) = some l
  | [], _ => by simp [b64Encode, b64Decode]
  | [a], h => by
    have ha : a < 256 := h a (by simp)
    have h1 : a / 4 < 64 := by omega
    have h2 : a % 4 * 16 < 64 := by omega
    simp [b64Encode, b64Decode, b64Idx_b64Code _ h1, b64Idx_b64Code _ h2]
    omega
  | [a, b], h => by
    have ha : a < 256 := h a (by simp)
    have hb : b < 256 := h b (by simp)
    have h1 : a / 4 < 64 := by omega
    have h2 : a % 4 * 16 + b / 16 < 64 := by omega
    have h3 : b % 16 * 4 < 64 := by omega
    have hne : b64Code (b % 16 * 4) ≠ 61 := b64Code_ne_pad _ h3
    simp [b64Encode, b64Decode, b64Idx_b64Code _ h1, b64Idx_b64Code _ h2,
      b64Idx_b64Code _ h3, hne]
    omega
  | a :: b :: d :: rest, h => by
    have ha : a < 256 := h a (by simp)
    have hb : b < 256 := h b (by simp)
    have hd : d < 256 := h d (by simp)
    have h1 : a / 4 < 64 := by omega
    have h2 : a % 4 * 16 + b / 16 < 64 := by omega
    have h3 : b % 16 * 4 + d / 64 < 64 := by omega
    have h4 : d % 64 < 64 := by omega
    have ih := b64_roundtrip rest (fun x hx => h x (by simp [hx]))
    have hne1 : b64Code (b % 16 * 4 + d / 64) ≠ 61 := b64Code_ne_pad _ h3
    have hne2 : b64Code (d % 64) ≠ 61 := b64Code_ne_pad _ h4
    simp [b64Encode, b64Decode, b64Idx_b64Code _ h1, b64Idx_b64Code _ h2,
      b64Idx_b64Code _ h3, b64Idx_b64Code _ h4, hne1, hne2, ih]
    omega

/-! ## Credential resolver (`getGHCRAuth`) and registry authenticator
(`credentialsFunc`)

`getGHCRAuth` is the GHCR branch of the credential resolver (task.sh
historical CLI document, lines 310-319); the current
`worker/fetch-image.go` obtains the same mapping through the
`GetGHCRCredentials` library helper.  Usernames, tokens and decoded
auth material are byte lists; 58 is the byte value of the colon. -/

/-- GHCR credential resolution: requires a non-empty username and
token, and produces a single entry for host `ghcr.io` whose value is
the base64 encoding of `username:token`. -/
def getGHCRAuth (username token : List Nat) : Except String (List (String × List Nat)) :=
  if username = [] ∨ token = [] then
    .error "GHCR requires --gh-username and --gh-token"
  else
    .ok [("ghcr.io", b64Encode (username ++ 58 :: token))]

/-- Go `strings.SplitN(s, ":", 2)` restricted to the shape
`credentialsFunc` checks: split the byte list at the first colon,
`none` when there is no colon (SplitN then yields a single part). -/
def splitColon : List Nat → Option (List Nat × List Nat)
  | [] => none
  | b :: rest =>
    if b = 58 then some ([], rest)
    else (splitColon rest).map (fun p => (b :: p.1, p.2))

/-- Host lookup in the `auths` mapping of the Docker config
(`cfg.Auths[host]` in `pullAndCreateDockerArchive`). -/
def lookupAuth (auths : List (String × List Nat)) (host : String) : Option (List Nat) :=
  (auths.find? (fun p => p.1 = host)).map (fun p => p.2)

/-- The authenticator closure from `pullAndCreateDockerArchive`
(`worker/fetch-image.go`, lines 156-172): look up the host, base64
decode the stored auth value, split at the first colon into username
and password; missing colon and absent host produce distinct errors. -/
def credentialsFunc (auths : List (String × List Nat)) (host : String) :
    Except String (List Nat × List Nat) :=
  match lookupAuth auths host with
  | some a =>
    match b64Decode a with
    | none => .error "illegal base64 data"
    | some decoded =>
      match splitColon decoded with
      | some p => .ok p
      | none => .error ("invalid auth format for " ++ host)
  | none => .error ("no credentials for host " ++ host)

theorem splitColon_append (u p : List Nat) (hu : 58 ∉ u) :
    splitColon (u ++ 58 :: p) = some (u, p) := by
  induction u with
  | nil => simp [splitColon]
  | cons b rest ih =>
    have hb : b ≠ 58 := by
      intro hb
      exact hu (by simp [hb])
    have hrest : 58 ∉ rest := fun hx => hu (by simp [hx])
    simp [splitColon, hb, ih hrest]

theorem splitColon_none (v : List Nat) (hv : 58 ∉ v) : splitColon v = none := by
  induction v with
  | nil => rfl
  | cons b rest ih =>
    have hb : b ≠ 58 := by
      intro hb
      exact hv (by simp [hb])
    have hrest : 58 ∉ rest := fun hx => hv (by simp [hx])
    simp [splitColon, hb, ih hrest]

theorem string_data_append (a b : String) : (a ++ b).data = a.data ++ b.data := by
  cases a
  cases b
  rfl

theorem invalid_format_ne_no_creds (host : String) :
    ("invalid auth format for " ++ host) ≠ ("no credentials for host " ++ host) := by
  intro h
  have h2 := congrArg String.data h
  rw [string_data_append, string_data_append] at h2
  simp at h2

/-- C5: for credential pairs with non-empty username and token, the
GHCR resolver returns exactly one entry, keyed by the GHCR host
`ghcr.io`, whose base64-decoded secret is the byte string
`username:token`; with an empty username or token it fails with the
missing-credential error and returns no mapping. -/
theorem getGHCRAuth_spec (username token : List Nat)
    (hu : username ≠ []) (ht : token ≠ [])
    (hbytes : ∀ b ∈ username ++ 58 :: token, b < 256) :
    getGHCRAuth username token = .ok [("ghcr.io", b64Encode (username ++ 58 :: token))] ∧
    b64Decode (b64Encode (username ++ 58 :: token)) = some (username ++ 58 :: token) ∧
    (∀ u t : List Nat, u = [] ∨ t = [] →
      getGHCRAuth u t = .error "GHCR requires --gh-username and --gh-token") := by
  refine ⟨?_, b64_roundtrip _ hbytes, ?_⟩
  · simp [getGHCRAuth, hu, ht]
  · intro u t hut
    simp [getGHCRAuth, hut]

/-- Witness for C5: username `u` (byte 117), token `t` (byte 116). -/
theorem getGHCRAuth_spec_witness :
    getGHCRAuth [117] [116] = .ok [("ghcr.io", b64Encode ([117] ++ 58 :: [116]))] ∧
    b64Decode (b64Encode ([117] ++ 58 :: [116])) = some ([117] ++ 58 :: [116]) ∧
    (∀ u t : List Nat, u = [] ∨ t = [] →
      getGHCRAuth u t = .error "GHCR requires --gh-username and --gh-token") :=
  getGHCRAuth_spec [117] [116] (by decide) (by decide) (by decide)

/-- C10: the authenticator decodes the stored auth value and splits it
at the first colon only, so the part before the colon is the username
and everything after it (colons included) is the password; a decoded
value with no colon yields the invalid-auth-format error, which
differs from the missing-credential error produced for a host absent
from the mapping. -/
theorem credentialsFunc_spec :
    (∀ (auths : List (String × List Nat)) (host : String) (u p : List Nat),
      lookupAuth auths host = some (b64Encode (u ++ 58 :: p)) → 58 ∉ u →
      (∀ b ∈ u ++ 58 :: p, b < 256) →
      credentialsFunc auths host = .ok (u, p)) ∧
    (∀ (auths : List (String × List Nat)) (host : String) (v : List Nat),
      lookupAuth auths host = some (b64Encode v) → 58 ∉ v → (∀ b ∈ v, b < 256) →
      credentialsFunc auths host = .error ("invalid auth format for " ++ host)) ∧
    (∀ (auths : List (String × List Nat)) (host : String),
      lookupAuth auths host = none →
      credentialsFunc auths host = .error ("no credentials for host " ++ host)) ∧
    (∀ host : String,
      ("invalid auth format for " ++ host) ≠ ("no credentials for host " ++ host)) := by
  refine ⟨?_, ?_, ?_, invalid_format_ne_no_creds⟩
  · intro auths host u p hlook hu hbytes
    simp [credentialsFunc, hlook, b64_roundtrip _ hbytes, splitColon_append u p hu]
  · intro auths host v hlook hv hbytes
    simp [credentialsFunc, hlook, b64_roundtrip _ hbytes, splitColon_none v hv]
  · intro auths host hlook
    simp [credentialsFunc, hlook]

/-- Witness for C10: a mapping holding `user` / `pa:ss` (password with
an embedded colon, bytes 112 97 58 115 115) for host `ghcr.io`, a
colon-free value for host `h2`, and the absent host `h3`. -/
theorem credentialsFunc_spec_witness :
    credentialsFunc [("ghcr.io", b64Encode ([117] ++ 58 :: [112, 97, 58, 115, 115]))] "ghcr.io" =
      .ok ([117], [112, 97, 58, 115, 115]) ∧
    credentialsFunc [("h2", b64Encode [117])] "h2" = .error ("invalid auth format for " ++ "h2") ∧
    credentialsFunc [] "h3" = .error ("no credentials for host " ++ "h3") ∧
    ("invalid auth format for " ++ "h3") ≠ ("no credentials for host " ++ "h3") :=
  ⟨credentialsFunc_spec.1 _ "ghcr.io" [117] [112, 97, 58, 115, 115] (by rfl) (by decide) (by decide),
   credentialsFunc_spec.2.1 _ "h2" [117] (by rfl) (by decide) (by decide),
   credentialsFunc_spec.2.2.1 [] "h3" (by rfl),
   credentialsFunc_spec.2.2.2 "h3"⟩

/-! ## OCI puller and archive builder (`worker/fetch-image.go`)

`pullAndCreateDockerArchive` is modelled after the registry copy has
populated the in-memory content storeage: the raw manifest bytes, its
parse result, and the store (digest to blob bytes) are inputs.  The
working directory is an association list from file name to bytes, and
an ordered log records every file write of the run.  JSON rendering of
the Docker-style manifest (stdlib `json.MarshalIndent`) is abstracted
by a concrete byte encoding; tar header timestamps are not modelled,
a tar member is its (name, content) pair. -/

/-- ContentDescriptor: media type plus digest (blob size is not
consulted by the code under proof). -/
structure Descriptor where
  mediaType : String
  digest : String
deriving DecidableEq, Repr

/-- OCI image manifest: config descriptor plus ordered layers. -/
structure Manifest where
  config : Descriptor
  layers : List Descriptor
deriving DecidableEq, Repr

/-- The fixed media-type allow-list from `worker/fetch-image.go`. -/
def AllowedMediaTypes : List String :=
  ["application/vnd.oci.descriptor.v1+json",
   "application/vnd.oci.layout.header.v1+json",
   "application/vnd.oci.image.index.v1+json",
   "application/vnd.oci.image.manifest.v1+json",
   "application/vnd.oci.image.config.v1+json",
   "application/vnd.oci.image.layer.v1.tar",
   "application/vnd.oci.image.layer.v1.tar+gzip",
   "application/vnd.oci.image.layer.v1.tar+zstd",
   "application/vnd.oci.empty.v1+json",
   "application/vnd.oci.image.layer.nondistributable.v1.tar",
   "application/vnd.oci.image.layer.nondistributable.v1.tar+gzip",
   "application/vnd.oci.image.layer.nondistributable.v1.tar+zstd",
   "application/vnd.docker.distribution.manifest.v2+json",
   "application/vnd.docker.image.rootfs.diff.tar.gzip",
   "application/vnd.docker.container.image.v1+json"]

/-- Membership in the allow-list (`isAllowedMediaType`). -/
def isAllowedMediaType (mt : String) : Bool := AllowedMediaTypes.contains mt

/-- Media-type validation: the config descriptor and every layer
descriptor must carry an allowed type; the first offender aborts. -/
def validateOCIMediaTypes (m : Manifest) : Except String Unit :=
  if ¬ isAllowedMediaType m.config.mediaType then
    .error ("config media type " ++ m.config.mediaType ++ " is not allowed")
  else
    match m.layers.find? (fun l => ¬ isAllowedMediaType l.mediaType) with
    | some l => .error ("layer media type " ++ l.mediaType ++ " is not allowed")
    | none => .ok ()

/-- Working-directory read (`os.Stat` / `os.Open`). -/
def dirRead (dir : List (String × List Nat)) (name : String) : Option (List Nat) :=
  (dir.find? (fun p => p.1 = name)).map (fun p => p.2)

/-- Working-directory write (`os.WriteFile`, which truncates an
existing file). -/
def dirWrite (dir : List (String × List Nat)) (name : String) (content : List Nat) :
    List (String × List Nat) :=
  (name, content) :: dir.filter (fun p => p.1 ≠ name)

/-- Working-directory removal (`os.Remove`). -/
def dirRemove (dir : List (String × List Nat)) (name : String) : List (String × List Nat) :=
  dir.filter (fun p => p.1 ≠ name)

/-- Name of the i-th (0-based) layer file: `layer1.tar`, `layer2.tar`, … -/
def layerFileName (i : Nat) : String := "layer" ++ toString (i + 1) ++ ".tar"

/-- The layer loop of `pullAndCreateDockerArchive`: fetch each layer
blob from the store and write it to its numbered file.  Returns the
(name, bytes) files written in order and the first error, if any;
files preceding a failing fetch stay written, as in the source. -/
def pullLayers (store : String → Option (List Nat)) :
    Nat → List Descriptor → List (String × List Nat) × Option String
  | _, [] => ([], none)
  | i, l :: rest =>
    match store l.digest with
    | none => ([], some "failed to fetch layer")
    | some lb =>
      let r := pullLayers store (i + 1) rest
      ((layerFileName i, lb) :: r.1, r.2)

/-- One record of the Docker-style `manifest.json` array. -/
structure DockerManifestEntry where
  Config : String
  RepoTags : List String
  Layers : List String
deriving DecidableEq, Repr

/-- Byte image of a string. -/
def strBytes (s : String) : List Nat := s.toList.map Char.toNat

/-- Rendering of the Docker-style manifest to bytes (model of
`json.MarshalIndent`; the exact stdlib formatting is abstracted). -/
def encodeDockerManifest (es : List DockerManifestEntry) : List Nat :=
  (es.map (fun e =>
    strBytes e.Config ++ [10] ++
    (e.RepoTags.map (fun s => strBytes s ++ [10])).flatten ++ [10] ++
    (e.Layers.map (fun s => strBytes s ++ [10])).flatten ++ [10])).flatten

/-- `createTar`: read every named file from the working directory, in
the given order, producing the ordered tar member list; a missing
file aborts. -/
def createTar (dir : List (String × List Nat)) :
    List String → Except String (List (String × List Nat))
  | [] => .ok []
  | f :: rest =>
    match dirRead dir f with
    | none => .error ("failed to stat file " ++ f)
    | some c => (createTar dir rest).map (fun ms => (f, c) :: ms)

/-- Result of one `pullAndCreateDockerArchive` run: outcome, ordered
log of file writes, final working directory, the members of the
produced `image.tar` (when it was created), and the Docker-style
manifest record that was serialized (when reached). -/
structure PullOutcome where
  result : Except String Unit
  writes : List (String × List Nat)
  dir : List (String × List Nat)
  tarMembers : Option (List (String × List Nat))
  dockerManifest : Option (List DockerManifestEntry)
deriving Repr

/-- The pull-and-assemble pipeline of `worker/fetch-image.go`
(lines 148-286), starting after `oras.Copy` and the manifest fetch:
write `oci-manifest.json`, parse, validate media types, fetch and
write the config, fetch and write each layer in order, write the
Docker-style `manifest.json`, tar the files in fixed order into
`image.tar`, then remove the two manifest files. -/
def pullAndCreateDockerArchive (repoTag : String) (manifestContent : List Nat)
    (parsed : Option Manifest) (store : String → Option (List Nat))
    (dir0 : List (String × List Nat)) : PullOutcome :=
  let dir1 := dirWrite dir0 "oci-manifest.json" manifestContent
  let w1 := [("oci-manifest.json", manifestContent)]
  match parsed with
  | none =>
    { result := .error "failed to unmarshal manifest", writes := w1, dir := dir1,
      tarMembers := none, dockerManifest := none }
  | some manifest =>
    match validateOCIMediaTypes manifest with
    | .error e =>
      { result := .error ("media type validation failed: " ++ e), writes := w1, dir := dir1,
        tarMembers := none, dockerManifest := none }
    | .ok _ =>
      match store manifest.config.digest with
      | none =>
        { result := .error "failed to fetch config", writes := w1, dir := dir1,
          tarMembers := none, dockerManifest := none }
      | some configBytes =>
        let dir2 := dirWrite dir1 "config.json" configBytes
        let w2 := w1 ++ [("config.json", configBytes)]
        let lr := pullLayers store 0 manifest.layers
        let dir3 := lr.1.foldl (fun d p => dirWrite d p.1 p.2) dir2
        let w3 := w2 ++ lr.1
        match lr.2 with
        | some e =>
          { result := .error e, writes := w3, dir := dir3,
            tarMembers := none, dockerManifest := none }
        | none =>
          let layerFiles := lr.1.map (fun p => p.1)
          let dm : List DockerManifestEntry :=
            [{ Config := "config.json", RepoTags := [repoTag], Layers := layerFiles }]
          let dmBytes := encodeDockerManifest dm
          let dir4 := dirWrite dir3 "manifest.json" dmBytes
          let w4 := w3 ++ [("manifest.json", dmBytes)]
          let filesToTar := ["manifest.json", "config.json", "oci-manifest.json"] ++ layerFiles
          match createTar dir4 filesToTar with
          | .error e =>
            { result := .error ("failed to create tar: " ++ e), writes := w4, dir := dir4,
              tarMembers := none, dockerManifest := some dm }
          | .ok members =>
            { result := .ok (), writes := w4,
              dir := dirRemove (dirRemove dir4 "manifest.json") "oci-manifest.json",
              tarMembers := some members, dockerManifest := some dm }

/-- C2 counterexample: a manifest whose config media type is outside
the allow-list makes the pull fail, yet a file (`oci-manifest.json`,
the raw manifest blob) has already been written to the working
directory before the validation outcome was known — refuting "no file
at all is written to disk before the validation outcome is known". -/
theorem pull_writes_manifest_before_validation :
    (pullAndCreateDockerArchive "t"
      [123] (some { config := { mediaType := "application/evil", digest := "dc" },
                    layers := [] })
      (fun _ => none) []).result =
        .error ("media type validation failed: " ++
          ("config media type " ++ "application/evil" ++ " is not allowed")) ∧
    (pullAndCreateDockerArchive "t"
      [123] (some { config := { mediaType := "application/evil", digest := "dc" },
                    layers := [] })
      (fun _ => none) []).writes = [("oci-manifest.json", [123])] ∧
    [("oci-manifest.json", [123])] ≠ ([] : List (String × List Nat)) := by
  refine ⟨by rfl, by rfl, by simp⟩

/-- C2 amended: for any manifest whose config or layer media types
fail validation, the pull fails with the unsupported-media-type error
and aborts (no layer is skipped, no tar is produced, and no config or
layer blob is written) — but the raw OCI manifest has already been
written to `oci-manifest.json`, so exactly that one file is on disk
before the validation outcome is known. -/
theorem pull_media_type_failure (repoTag : String) (content : List Nat) (m : Manifest)
    (store : String → Option (List Nat)) (e : String)
    (hv : validateOCIMediaTypes m = .error e) :
    (pullAndCreateDockerArchive repoTag content (some m) store []).result =
      .error ("media type validation failed: " ++ e) ∧
    (pullAndCreateDockerArchive repoTag content (some m) store []).writes =
      [("oci-manifest.json", content)] ∧
    (pullAndCreateDockerArchive repoTag content (some m) store []).tarMembers = none := by
  simp [pullAndCreateDockerArchive, hv]

/-- Witness for C2 amended: a single-layer manifest whose layer media
type `application/evil` is rejected. -/
theorem pull_media_type_failure_witness :
    validateOCIMediaTypes
      { config := { mediaType := "application/vnd.oci.image.config.v1+json", digest := "dc" },
        layers := [{ mediaType := "application/evil", digest := "d1" }] } =
      .error ("layer media type " ++ "application/evil" ++ " is not allowed") ∧
    (pullAndCreateDockerArchive "ghcr.io/example/app:v1.0" [1, 2]
      (some { config :=
                { mediaType := "application/vnd.oci.image.config.v1+json", digest := "dc" },
              layers := [{ mediaType := "application/evil", digest := "d1" }] })
      (fun _ => some [7]) []).result =
      .error ("media type validation failed: " ++
        ("layer media type " ++ "application/evil" ++ " is not allowed")) ∧
    (pullAndCreateDockerArchive "ghcr.io/example/app:v1.0" [1, 2]
      (some { config :=
                { mediaType := "application/vnd.oci.image.config.v1+json", digest := "dc" },
              layers := [{ mediaType := "application/evil", digest := "d1" }] })
      (fun _ => some [7]) []).writes = [("oci-manifest.json", [1, 2])] ∧
    (pullAndCreateDockerArchive "ghcr.io/example/app:v1.0" [1, 2]
      (some { config :=
                { mediaType := "application/vnd.oci.image.config.v1+json", digest := "dc" },
              layers := [{ mediaType := "application/evil", digest := "d1" }] })
      (fun _ => some [7]) []).tarMembers = none := by
  have h := pull_media_type_failure "ghcr.io/example/app:v1.0" [1, 2]
    { config := { mediaType := "application/vnd.oci.image.config.v1+json", digest := "dc" },
      layers := [{ mediaType := "application/evil", digest := "d1" }] }
    (fun _ => some [7])
    ("layer media type " ++ "application/evil" ++ " is not allowed") (by rfl)
  exact ⟨by rfl, h.1, h.2.1, h.2.2⟩

/-- Names of the files produced by the layer loop: when it succeeds,
starting at index `i` over `n` layers it writes `layer(i+1).tar`
through `layer(i+n).tar`, in layer order. -/
theorem pullLayers_names (store : String → Option (List Nat)) :
    ∀ (ls : List Descriptor) (i : Nat), (pullLayers store i ls).2 = none →
      (pullLayers store i ls).1.map (fun p => p.1) =
        (List.range ls.length).map (fun j => layerFileName (i + j)) := by
  intro ls
  induction ls with
  | nil => intro i _; rfl
  | cons l rest ih =>
    intro i h
    simp only [pullLayers] at h ⊢
    cases hs : store l.digest with
    | none => rw [hs] at h; simp at h
    | some lb =>
      rw [hs] at h
      simp only at h
      have := ih (i + 1) h
      simp [List.range_succ_eq_map, this]
      intro a ha
      congr 1
      omega

/-- Tar members carry exactly the requested file names, in order. -/
theorem createTar_names (dir : List (String × List Nat)) :
    ∀ (fs : List String) (ms : List (String × List Nat)),
      createTar dir fs = .ok ms → ms.map (fun p => p.1) = fs := by
  intro fs
  induction fs with
  | nil =>
    intro ms h
    simp only [createTar] at h
    cases h
    rfl
  | cons f rest ih =>
    intro ms h
    simp only [createTar] at h
    cases hr : dirRead dir f with
    | none => rw [hr] at h; simp at h
    | some c =>
      rw [hr] at h
      simp only at h
      cases ht : createTar dir rest with
      | error e => rw [ht] at h; simp [Except.map] at h
      | ok ms2 =>
        rw [ht] at h
        simp only [Except.map] at h
        cases h
        simp [ih ms2 ht]

/-- Expected layer file names for an n-layer manifest:
`layer1.tar` … `layern.tar`. -/
def layerFileNames (n : Nat) : List String := (List.range n).map layerFileName

/-- C4: for every manifest with N layers, a successful pull produces a
Docker-style manifest that is a single-element array whose record has
`Config` naming the written config file, `RepoTags` equal to
`[repoTag]` and `Layers` listing `layer1.tar` … `layerN.tar` in
manifest order, and the tar archive's members appear in the exact
order Docker manifest, config, raw OCI manifest, then the layers. -/
theorem pull_archive_layout (repoTag : String) (content : List Nat) (m : Manifest)
    (store : String → Option (List Nat)) (dir0 : List (String × List Nat))
    (h : (pullAndCreateDockerArchive repoTag content (some m) store dir0).result = .ok ()) :
    (pullAndCreateDockerArchive repoTag content (some m) store dir0).dockerManifest =
      some [{ Config := "config.json", RepoTags := [repoTag],
              Layers := layerFileNames m.layers.length }] ∧
    ((pullAndCreateDockerArchive repoTag content (some m) store dir0).tarMembers.map
        (fun ms => ms.map (fun p => p.1))) =
      some (["manifest.json", "config.json", "oci-manifest.json"] ++
        layerFileNames m.layers.length) ∧
    (layerFileNames m.layers.length).length = m.layers.length := by
  simp only [pullAndCreateDockerArchive] at h ⊢
  split at h
  next e heqv => simp at h
  next u heqv =>
    split at h
    next heqc => simp at h
    next cb heqc =>
      split at h
      next e heql => simp at h
      next heql =>
        split at h
        next e heqt => simp at h
        next members heqt =>
          have hnames := pullLayers_names store m.layers 0 heql
          simp only [heqv, heqc, heql, heqt]
          refine ⟨?_, ?_, ?_⟩
          · rw [hnames]
            simp [layerFileNames, layerFileName]
          · have hm := createTar_names _ _ _ heqt
            simp [hm, hnames, layerFileNames, layerFileName]
          · simp [layerFileNames]

/-- Witness for C4: a two-layer manifest pulled from a concrete store;
the pull succeeds and the layout follows. -/
theorem pull_archive_layout_witness :
    (pullAndCreateDockerArchive "ghcr.io/example/app:v1.0" [1]
      (some { config :=
                { mediaType := "application/vnd.oci.image.config.v1+json", digest := "dc" },
              layers :=
                [{ mediaType := "application/vnd.oci.image.layer.v1.tar+gzip", digest := "d1" },
                 { mediaType := "application/vnd.oci.image.layer.v1.tar", digest := "d2" }] })
      (fun d => if d = "dc" then some [3] else if d = "d1" then some [4]
                else if d = "d2" then some [5] else none) []).result = .ok () ∧
    (pullAndCreateDockerArchive "ghcr.io/example/app:v1.0" [1]
      (some { config :=
                { mediaType := "application/vnd.oci.image.config.v1+json", digest := "dc" },
              layers :=
                [{ mediaType := "application/vnd.oci.image.layer.v1.tar+gzip", digest := "d1" },
                 { mediaType := "application/vnd.oci.image.layer.v1.tar", digest := "d2" }] })
      (fun d => if d = "dc" then some [3] else if d = "d1" then some [4]
                else if d = "d2" then some [5] else none) []).dockerManifest =
      some [{ Config := "config.json", RepoTags := ["ghcr.io/example/app:v1.0"],
              Layers := layerFileNames 2 }] := by
  constructor
  · rfl
  · exact (pull_archive_layout "ghcr.io/example/app:v1.0" [1] _ _ [] (by rfl)).1

/-- C8: building the archive twice from the same manifest and content
store, each run starting from a clean working directory, produces the
same outcome — in particular the same ordered tar member list with
identical member contents (tar header timestamps are outside the
model).  The archive content is a deterministic function of the
manifest, the store and the repo tag: nothing in the member list or
its ordering depends on the starting directory state or any other
run-dependent input. -/
theorem pull_idempotent (repoTag : String) (content : List Nat) (parsed : Option Manifest)
    (store : String → Option (List Nat)) (dir1 dir2 : List (String × List Nat))
    (h1 : dir1 = []) (h2 : dir2 = []) :
    (pullAndCreateDockerArchive repoTag content parsed store dir1).tarMembers =
      (pullAndCreateDockerArchive repoTag content parsed store dir2).tarMembers ∧
    (pullAndCreateDockerArchive repoTag content parsed store dir1).writes =
      (pullAndCreateDockerArchive repoTag content parsed store dir2).writes := by
  rw [h1, h2]
  exact ⟨rfl, rfl⟩

/-- Witness for C8: two clean-directory runs over a one-layer manifest
agree, and both produce the concrete four-member archive. -/
theorem pull_idempotent_witness :
    ((pullAndCreateDockerArchive "r" [9]
        (some { config :=
                  { mediaType := "application/vnd.oci.image.config.v1+json", digest := "dc" },
                layers :=
                  [{ mediaType := "application/vnd.oci.image.layer.v1.tar", digest := "d1" }] })
        (fun d => if d = "dc" then some [3] else if d = "d1" then some [4] else none)
        []).tarMembers =
      (pullAndCreateDockerArchive "r" [9]
        (some { config :=
                  { mediaType := "application/vnd.oci.image.config.v1+json", digest := "dc" },
                layers :=
                  [{ mediaType := "application/vnd.oci.image.layer.v1.tar", digest := "d1" }] })
        (fun d => if d = "dc" then some [3] else if d = "d1" then some [4] else none)
        []).tarMembers ∧
     (pullAndCreateDockerArchive "r" [9]
        (some { config :=
                  { mediaType := "application/vnd.oci.image.config.v1+json", digest := "dc" },
                layers :=
                  [{ mediaType := "application/vnd.oci.image.layer.v1.tar", digest := "d1" }] })
        (fun d => if d = "dc" then some [3] else if d = "d1" then some [4] else none)
        []).writes =
      (pullAndCreateDockerArchive "r" [9]
        (some { config :=
                  { mediaType := "application/vnd.oci.image.config.v1+json", digest := "dc" },
                layers :=
                  [{ mediaType := "application/vnd.oci.image.layer.v1.tar", digest := "d1" }] })
        (fun d => if d = "dc" then some [3] else if d = "d1" then some [4] else none)
        []).writes) ∧
    (pullAndCreateDockerArchive "r" [9]
      (some { config :=
                { mediaType := "application/vnd.oci.image.config.v1+json", digest := "dc" },
              layers :=
                [{ mediaType := "application/vnd.oci.image.layer.v1.tar", digest := "d1" }] })
      (fun d => if d = "dc" then some [3] else if d = "d1" then some [4] else none)
      []).tarMembers =
      some [("manifest.json",
              encodeDockerManifest
                [{ Config := "config.json", RepoTags := ["r"], Layers := ["layer1.tar"] }]),
            ("config.json", [3]), ("oci-manifest.json", [9]), ("layer1.tar", [4])] :=
  ⟨pull_idempotent "r" [9]
    (some { config := { mediaType := "application/vnd.oci.image.config.v1+json", digest := "dc" },
            layers :=
              [{ mediaType := "application/vnd.oci.image.layer.v1.tar", digest := "d1" }] })
    (fun d => if d = "dc" then some [3] else if d = "d1" then some [4] else none)
    [] [] rfl rfl, by rfl⟩

/-! ## Job worker (`worker/worker.go`)

`ProcessMessage` is modelled as a trace of the messages it publishes
and the pipeline actions it performs.  The outcomes of the two
effectful pipeline stages (`fetchImage` and the grype subprocess) are
inputs; queue publish failures are logged-only in the source and
cannot change the trace shape.  Statuses mirror
`models.TaskRunStatus*` of the task framework. -/

/-- Job run status as published in result messages. -/
inductive TaskRunStatus
  | created
  | inProgress
  | finished
  | failed
deriving DecidableEq, Repr

/-- Consumed job message (`scheduler.TaskRequest`): run identifier and
string parameter map. -/
structure TaskRequest where
  runID : Nat
  params : List (String × String)
deriving DecidableEq, Repr

/-- Published message body (`scheduler.TaskResponse`). -/
structure TaskResponse where
  runID : Nat := 0
  status : TaskRunStatus := .created
  result : List Nat := []
  failureMessage : String := ""
deriving DecidableEq, Repr

/-- Parameter lookup (`request.Params[key]`). -/
def lookupParam (params : List (String × String)) (key : String) : Option String :=
  (params.find? (fun p => p.1 = key)).map (fun p => p.2)

/-- Argument list of the worker's grype invocation
(`worker/worker.go`, line 168). -/
def grypeArgsWorker : List String := ["docker-archive:./image.tar"]

/-- Archive path passed to grype by `RunTask`
(`task/run-task.go`, line 54). -/
def archivePathRunTask (runID : Nat) : String := "run-" ++ toString runID ++ "/image.tar"

/-- Argument list of the `RunTask` grype invocation
(`task/run-task.go`, line 54). -/
def grypeArgsRunTask (runID : Nat) : List String :=
  [archivePathRunTask runID, "-o", "json"]

/-- Observable actions of one `ProcessMessage` run, in order. -/
inductive WorkerEvent
  | publish (resp : TaskResponse) (key : String)
  | fetch (registryType output uri : String)
  | runGrype (args : List String)
  | ack
deriving DecidableEq, Repr

/-- Abstract outcomes of the effectful pipeline stages for one job:
the `fetchImage` result, the combined stdout+stderr of the grype
subprocess, and its exit outcome (error for a non-zero exit). -/
structure PipelineEnv where
  fetchOutcome : Except String Unit
  grypeOutput : List Nat
  grypeExit : Except String Unit
deriving Repr

/-- Outcome of the body of `ProcessMessage` before its deferred result
publisher runs: the returned error, the events so far, and the
response value accumulated so far. -/
structure BodyResult where
  err : Option String
  events : List WorkerEvent
  resp : TaskResponse
deriving Repr

/-- Body of `ProcessMessage` (`worker/worker.go`, lines 133-186):
publish the in-progress message, read `oci_artifact_url` (failing with
the fixed message when absent), default `registry_type` to `ghcr`,
run `fetchImage`, run grype capturing combined output, and on success
store the output in the response with status finished. -/
def processBody (req : TaskRequest) (env : PipelineEnv) : BodyResult :=
  let r0 : TaskResponse := { runID := req.runID, status := .inProgress }
  let e0 := [WorkerEvent.publish r0 ("task-run-inprogress-" ++ toString req.runID)]
  match lookupParam req.params "oci_artifact_url" with
  | none =>
    { err := some "OCI artifact url parameter is not provided", events := e0, resp := r0 }
  | some url =>
    let registryType := (lookupParam req.params "registry_type").getD "ghcr"
    let e1 := e0 ++ [WorkerEvent.fetch registryType "./image.tar" url]
    match env.fetchOutcome with
    | .error msg => { err := some msg, events := e1, resp := r0 }
    | .ok _ =>
      let e2 := e1 ++ [WorkerEvent.runGrype grypeArgsWorker]
      match env.grypeExit with
      | .error msg => { err := some msg, events := e2, resp := r0 }
      | .ok _ =>
        { err := none, events := e2,
          resp := { r0 with result := env.grypeOutput, status := .finished } }

/-- The deferred result publisher of the current `ProcessMessage`
(`worker/worker.go`, lines 114-120): on error it stores the failure
message and sets status failed — and on success it also sets status
failed (both branches assign `TaskRunStatusFailed`). -/
def finalizeResponse (err : Option String) (resp : TaskResponse) : TaskResponse :=
  match err with
  | some e => { resp with failureMessage := e, status := .failed }
  | none => { resp with status := .failed }

/-- The deferred result publisher of the other `ProcessMessage`
revision (second document of `worker/fetch-image.go`, lines 472-478):
on success it sets status finished. -/
def finalizeResponseVariant (err : Option String) (resp : TaskResponse) : TaskResponse :=
  match err with
  | some e => { resp with failureMessage := e, status := .failed }
  | none => { resp with status := .finished }

/-- `ProcessMessage` (`worker/worker.go`, lines 105-187): unmarshal
the request (a failure returns before the deferred publisher is
installed, so nothing is published), run the body, then let the
deferred publisher emit the single terminal result message keyed by
the run identifier.  Returns the error and the ordered event trace. -/
def processMessage (req : Option TaskRequest) (env : PipelineEnv) :
    Option String × List WorkerEvent :=
  match req with
  | none => (some "failed to unmarshal request", [])
  | some r =>
    let b := processBody r env
    (b.err,
     b.events ++
       [WorkerEvent.publish (finalizeResponse b.err b.resp)
         ("task-run-result-" ++ toString r.runID)])

/-- The consume callback of `Run` (`worker/worker.go`, lines 65-91):
process the message, then acknowledge it regardless of the outcome.
The jetstream lease heartbeat of the callback is outside this model. -/
def handleMessage (req : Option TaskRequest) (env : PipelineEnv) : List WorkerEvent :=
  (processMessage req env).2 ++ [WorkerEvent.ack]

/-- C1 evaluation at the failing input: a job with a valid artifact
URL whose pull and scan both succeed.  The pipeline returns no error,
yet the single terminal result message published by the worker carries
status failed, not finished — the deferred publisher of
`worker/worker.go` assigns `TaskRunStatusFailed` on its success branch
too, while the other revision of the same publisher (modelled by
`finalizeResponseVariant`) correctly yields finished. -/
theorem processMessage_success_publishes_failed :
    (processMessage
      (some { runID := 42, params := [("oci_artifact_url", "ghcr.io/example/app:v1.0")] })
      { fetchOutcome := .ok (), grypeOutput := [111, 107], grypeExit := .ok () }).1 = none ∧
    (processMessage
      (some { runID := 42, params := [("oci_artifact_url", "ghcr.io/example/app:v1.0")] })
      { fetchOutcome := .ok (), grypeOutput := [111, 107], grypeExit := .ok () }).2.getLast? =
      some (WorkerEvent.publish
        { runID := 42, status := .failed, result := [111, 107], failureMessage := "" }
        ("task-run-result-" ++ toString 42)) ∧
    TaskRunStatus.failed ≠ TaskRunStatus.finished ∧
    (finalizeResponseVariant none
      { runID := 42, status := .inProgress, result := [111, 107],
        failureMessage := "" }).status = TaskRunStatus.finished := by
  refine ⟨rfl, rfl, by simp, rfl⟩

/-- C6: a job message whose params lack `oci_artifact_url` makes the
worker publish, after the in-progress announcement, a single terminal
result with status failed and failure message exactly "OCI artifact
url parameter is not provided"; no fetch and no scan event occurs, and
the source message is still acknowledged. -/
theorem processMessage_missing_url (req : TaskRequest) (env : PipelineEnv)
    (h : lookupParam req.params "oci_artifact_url" = none) :
    handleMessage (some req) env =
      [WorkerEvent.publish { runID := req.runID, status := .inProgress }
         ("task-run-inprogress-" ++ toString req.runID),
       WorkerEvent.publish
         { runID := req.runID, status := .failed, result := [],
           failureMessage := "OCI artifact url parameter is not provided" }
         ("task-run-result-" ++ toString req.runID),
       WorkerEvent.ack] ∧
    (processMessage (some req) env).1 = some "OCI artifact url parameter is not provided" := by
  constructor
  · simp [handleMessage, processMessage, processBody, finalizeResponse, h]
  · simp [processMessage, processBody, h]

/-- Witness for C6: a request with an empty parameter map. -/
theorem processMessage_missing_url_witness :
    handleMessage (some { runID := 7, params := [] })
        { fetchOutcome := .ok (), grypeOutput := [], grypeExit := .ok () } =
      [WorkerEvent.publish { runID := 7, status := .inProgress }
         ("task-run-inprogress-" ++ toString 7),
       WorkerEvent.publish
         { runID := 7, status := .failed, result := [],
           failureMessage := "OCI artifact url parameter is not provided" }
         ("task-run-result-" ++ toString 7),
       WorkerEvent.ack] ∧
    (processMessage (some { runID := 7, params := [] })
        { fetchOutcome := .ok (), grypeOutput := [], grypeExit := .ok () }).1 =
      some "OCI artifact url parameter is not provided" :=
  processMessage_missing_url { runID := 7, params := [] }
    { fetchOutcome := .ok (), grypeOutput := [], grypeExit := .ok () } rfl

/-- An argument is flag-shaped when its first byte is a dash. -/
def startsWithDash (a : String) : Bool :=
  a.data.head?.map Char.toNat = some 45

theorem startsWithDash_archivePath (runID : Nat) :
    startsWithDash (archivePathRunTask runID) = false := by
  have hd : "run-".data = ['r', 'u', 'n', '-'] := rfl
  simp [archivePathRunTask, startsWithDash, string_data_append, hd]

/-- C3 counterexample: the worker's scan invocation
(`worker/worker.go`, line 168) passes a single argument and no flag at
all — its argument list has length one, contains no `-o`, and contains
no dash-prefixed flag — refuting "for every scan, the scanner is
invoked with … a flag requesting structured (machine-parseable)
output". -/
theorem grypeArgsWorker_lacks_output_flag :
    grypeArgsWorker = ["docker-archive:./image.tar"] ∧
    grypeArgsWorker.length = 1 ∧
    ("-o" ∈ grypeArgsWorker → False) ∧
    grypeArgsWorker.filter startsWithDash = [] := by
  refine ⟨rfl, rfl, by decide, ?_⟩
  have hd : "docker-archive:./image.tar".data.head?.map Char.toNat = some 100 := rfl
  simp [grypeArgsWorker, List.filter, startsWithDash, hd]

/-- Abstract outcomes of the effectful stages of one `RunTask` run:
the resource-sender construction, the `fetchImage` call, the
`showFiles` listing, and the grype subprocess (combined stdout+stderr
plus exit outcome). -/
structure RunTaskEnv where
  rsOutcome : Except String Unit
  fetchOutcome : Except String Unit
  showFilesOutcome : Except String Unit
  grypeOutput : List Nat
  grypeExit : Except String Unit
deriving Repr

/-- Observable actions of one `RunTask` run, in order. -/
inductive RunTaskEvent
  | fetch (registryType output uri : String)
  | showFiles (dir : String)
  | runGrype (args : List String)
  | sendResult
deriving DecidableEq, Repr

/-- Result of one `RunTask` run: the returned error, the ordered event
trace, and the combined grype output captured by `CombinedOutput`
(present whenever the subprocess was invoked, also on non-zero exit). -/
structure RunTaskOutcome where
  result : Except String Unit
  events : List RunTaskEvent
  captured : Option (List Nat)
deriving Repr

/-- `RunTask` (`task/run-task.go`, lines 19-89): connect the resource
sender, read `oci_artifact_url` (failing when absent), default
`registry_type` to `ghcr`, run `fetchImage` into the `run-<id>`
directory, list it, invoke grype with the archive path plus `-o json`
capturing combined output, and on a non-zero exit return that error;
on success the output is decoded (its decode error is ignored by the
source) and the result document is sent.  Returns the error, the
event trace, and the captured combined output. -/
def runTask (runID : Nat) (params : List (String × String)) (env : RunTaskEnv) :
    RunTaskOutcome :=
  match env.rsOutcome with
  | .error e =>
    { result := .error ("failed to connect to resource sender: " ++ e), events := [],
      captured := none }
  | .ok _ =>
    match lookupParam params "oci_artifact_url" with
    | none =>
      { result := .error "OCI artifact url parameter is not provided", events := [],
        captured := none }
    | some url =>
      let registryType := (lookupParam params "registry_type").getD "ghcr"
      let e1 := [RunTaskEvent.fetch registryType ("run-" ++ toString runID) url]
      match env.fetchOutcome with
      | .error msg => { result := .error msg, events := e1, captured := none }
      | .ok _ =>
        let e2 := e1 ++ [RunTaskEvent.showFiles ("run-" ++ toString runID)]
        match env.showFilesOutcome with
        | .error msg => { result := .error msg, events := e2, captured := none }
        | .ok _ =>
          let e3 := e2 ++ [RunTaskEvent.runGrype (grypeArgsRunTask runID)]
          match env.grypeExit with
          | .error msg =>
            { result := .error msg, events := e3, captured := some env.grypeOutput }
          | .ok _ =>
            { result := .ok (), events := e3 ++ [RunTaskEvent.sendResult],
              captured := some env.grypeOutput }

/-- C3 amended: the `RunTask` scan invocation passes the archive path
as its sole positional argument plus the `-o json` structured-output
flag, but the worker's `ProcessMessage` invokes grype with the single
argument `docker-archive:./image.tar` and no structured-output flag.
In both call sites combined stdout+stderr is captured and a non-zero
exit code fails the scan and hence the job: under a grype exit error
the worker returns that error and its terminal result message carries
status failed with the error as failure message, and `RunTask` returns
that error to the task framework with the combined output captured;
on exit success the worker's published result carries the captured
combined output and `RunTask` succeeds with the output captured. -/
theorem grype_invocation_spec (runID : Nat) (req : TaskRequest) (env : PipelineEnv)
    (url msg : String)
    (hurl : lookupParam req.params "oci_artifact_url" = some url)
    (hfetch : env.fetchOutcome = .ok ())
    (hexit : env.grypeExit = .error msg) :
    grypeArgsRunTask runID = [archivePathRunTask runID, "-o", "json"] ∧
    (grypeArgsRunTask runID).filter startsWithDash = ["-o"] ∧
    grypeArgsWorker = ["docker-archive:./image.tar"] ∧
    (processMessage (some req) env).1 = some msg ∧
    (processMessage (some req) env).2.getLast? =
      some (WorkerEvent.publish
        { runID := req.runID, status := .failed, result := [], failureMessage := msg }
        ("task-run-result-" ++ toString req.runID)) ∧
    (∀ env2 : PipelineEnv, env2.fetchOutcome = .ok () → env2.grypeExit = .ok () →
      (processMessage (some req) env2).2.getLast? =
        some (WorkerEvent.publish
          { runID := req.runID, status := .failed, result := env2.grypeOutput,
            failureMessage := "" }
          ("task-run-result-" ++ toString req.runID))) ∧
    (∀ (params : List (String × String)) (envR : RunTaskEnv) (url2 msg2 : String),
      envR.rsOutcome = .ok () → lookupParam params "oci_artifact_url" = some url2 →
      envR.fetchOutcome = .ok () → envR.showFilesOutcome = .ok () →
      envR.grypeExit = .error msg2 →
      (runTask runID params envR).result = .error msg2 ∧
      (runTask runID params envR).captured = some envR.grypeOutput ∧
      (runTask runID params envR).events.getLast? =
        some (RunTaskEvent.runGrype (grypeArgsRunTask runID))) ∧
    (∀ (params : List (String × String)) (envR : RunTaskEnv) (url2 : String),
      envR.rsOutcome = .ok () → lookupParam params "oci_artifact_url" = some url2 →
      envR.fetchOutcome = .ok () → envR.showFilesOutcome = .ok () →
      envR.grypeExit = .ok () →
      (runTask runID params envR).result = .ok () ∧
      (runTask runID params envR).captured = some envR.grypeOutput ∧
      RunTaskEvent.runGrype (grypeArgsRunTask runID) ∈ (runTask runID params envR).events) := by
  refine ⟨rfl, ?_, rfl, ?_, ?_, ?_, ?_, ?_⟩
  · have h1 := startsWithDash_archivePath runID
    have h2 : startsWithDash "-o" = true := rfl
    have h3 : startsWithDash "json" = false := rfl
    simp [grypeArgsRunTask, List.filter, h1, h2, h3]
  · simp [processMessage, processBody, hurl, hfetch, hexit]
  · simp [processMessage, processBody, finalizeResponse, hurl, hfetch, hexit]
  · intro env2 hf2 he2
    simp [processMessage, processBody, finalizeResponse, hurl, hf2, he2]
  · intro params envR url2 msg2 hrs hurl2 hf2 hs2 he2
    refine ⟨?_, ?_, ?_⟩ <;> simp [runTask, hrs, hurl2, hf2, hs2, he2]
  · intro params envR url2 hrs hurl2 hf2 hs2 he2
    refine ⟨?_, ?_, ?_⟩ <;> simp [runTask, hrs, hurl2, hf2, hs2, he2]

/-- Witness for C3 amended: run 9, a request with an artifact URL, a
worker environment whose grype exits non-zero, and two concrete
`RunTask` environments (one failing exit with captured output bytes
`[7]`, one clean exit) exercising both RunTask conjuncts. -/
theorem grype_invocation_spec_witness :
    grypeArgsRunTask 9 = [archivePathRunTask 9, "-o", "json"] ∧
    (grypeArgsRunTask 9).filter startsWithDash = ["-o"] ∧
    grypeArgsWorker = ["docker-archive:./image.tar"] ∧
    (processMessage (some { runID := 9, params := [("oci_artifact_url", "ghcr.io/a/b:v1")] })
      { fetchOutcome := .ok (), grypeOutput := [], grypeExit := .error "exit status 1" }).1 =
      some "exit status 1" ∧
    (processMessage (some { runID := 9, params := [("oci_artifact_url", "ghcr.io/a/b:v1")] })
      { fetchOutcome := .ok (), grypeOutput := [], grypeExit := .error "exit status 1" }).2.getLast? =
      some (WorkerEvent.publish
        { runID := 9, status := .failed, result := [], failureMessage := "exit status 1" }
        ("task-run-result-" ++ toString 9)) ∧
    ((runTask 9 [("oci_artifact_url", "ghcr.io/a/b:v1")]
        { rsOutcome := .ok (), fetchOutcome := .ok (), showFilesOutcome := .ok (),
          grypeOutput := [7], grypeExit := .error "exit status 1" }).result =
      .error "exit status 1" ∧
     (runTask 9 [("oci_artifact_url", "ghcr.io/a/b:v1")]
        { rsOutcome := .ok (), fetchOutcome := .ok (), showFilesOutcome := .ok (),
          grypeOutput := [7], grypeExit := .error "exit status 1" }).captured = some [7] ∧
     (runTask 9 [("oci_artifact_url", "ghcr.io/a/b:v1")]
        { rsOutcome := .ok (), fetchOutcome := .ok (), showFilesOutcome := .ok (),
          grypeOutput := [7], grypeExit := .error "exit status 1" }).events.getLast? =
      some (RunTaskEvent.runGrype (grypeArgsRunTask 9))) ∧
    ((runTask 9 [("oci_artifact_url", "ghcr.io/a/b:v1")]
        { rsOutcome := .ok (), fetchOutcome := .ok (), showFilesOutcome := .ok (),
          grypeOutput := [7], grypeExit := .ok () }).result = .ok () ∧
     (runTask 9 [("oci_artifact_url", "ghcr.io/a/b:v1")]
        { rsOutcome := .ok (), fetchOutcome := .ok (), showFilesOutcome := .ok (),
          grypeOutput := [7], grypeExit := .ok () }).captured = some [7] ∧
     RunTaskEvent.runGrype (grypeArgsRunTask 9) ∈
       (runTask 9 [("oci_artifact_url", "ghcr.io/a/b:v1")]
         { rsOutcome := .ok (), fetchOutcome := .ok (), showFilesOutcome := .ok (),
           grypeOutput := [7], grypeExit := .ok () }).events) := by
  have h := grype_invocation_spec 9
    { runID := 9, params := [("oci_artifact_url", "ghcr.io/a/b:v1")] }
    { fetchOutcome := .ok (), grypeOutput := [], grypeExit := .error "exit status 1" }
    "ghcr.io/a/b:v1" "exit status 1" rfl rfl rfl
  refine ⟨h.1, h.2.1, h.2.2.1, h.2.2.2.1, h.2.2.2.2.1, ?_, ?_⟩
  · exact h.2.2.2.2.2.2.1 [("oci_artifact_url", "ghcr.io/a/b:v1")]
      { rsOutcome := .ok (), fetchOutcome := .ok (), showFilesOutcome := .ok (),
        grypeOutput := [7], grypeExit := .error "exit status 1" }
      "ghcr.io/a/b:v1" "exit status 1" rfl rfl rfl rfl rfl
  · exact h.2.2.2.2.2.2.2 [("oci_artifact_url", "ghcr.io/a/b:v1")]
      { rsOutcome := .ok (), fetchOutcome := .ok (), showFilesOutcome := .ok (),
        grypeOutput := [7], grypeExit := .ok () }
      "ghcr.io/a/b:v1" rfl rfl rfl rfl rfl

/-! ## Credential emission in `fetchImage` (`worker/fetch-image.go`,
lines 72-118)

`fetchImage` resolves the registry credentials, serializes the
resulting Docker config to JSON and either prints it to stdout (empty
`output` argument) or writes it to the `output` path after creating
its parent directory, and only then runs the registry pull.  The GHCR
resolution (library helper `GetGHCRCredentials`) is modelled by
`getGHCRAuth`, whose contract the spec states identically; the JSON
serialization is abstracted, emission events carry the auths mapping
itself.  The pull outcome is an input. -/

/-- Credential parameters of a job (`Credentials` struct). -/
structure Credentials where
  githubUsername : List Nat := []
  githubToken : List Nat := []
  ecrAccountID : List Nat := []
  ecrRegion : List Nat := []
  acrLoginServer : List Nat := []
  acrTenantID : List Nat := []
deriving DecidableEq, Repr

/-- Observable actions of one `fetchImage` run, in order. -/
inductive FetchEvent
  | printOut (auths : List (String × List Nat))
  | mkdirAll (dir : String) (mode : Nat)
  | writeFile (path : String) (auths : List (String × List Nat)) (mode : Nat)
  | pull (uri : String)
deriving DecidableEq, Repr

/-- Parent directory of a path (Go `filepath.Dir`, restricted to the
clean relative paths the worker passes). -/
def dirOf (path : String) : String :=
  let parts := path.splitOn "/"
  if parts.length ≤ 1 then "." else String.intercalate "/" parts.dropLast

/-- `fetchImage`: resolve credentials for the registry type (only
`ghcr` is supported by the current source; anything else fails),
serialize them, print them to stdout when `output` is empty or write
them to `output` (mode 0600, parent directory created with mode 0700)
otherwise, then run the pull. -/
def fetchImage (registryType output uri : String) (creds : Credentials)
    (pullOutcome : Except String Unit) : Except String Unit × List FetchEvent :=
  if registryType = "ghcr" then
    match getGHCRAuth creds.githubUsername creds.githubToken with
    | .error e => (.error ("GHCR error: " ++ e), [])
    | .ok auths =>
      let emitted :=
        if output = "" then [FetchEvent.printOut auths]
        else [FetchEvent.mkdirAll (dirOf output) 0o700,
              FetchEvent.writeFile output auths 0o600]
      match pullOutcome with
      | .error e => (.error ("Failed to process " ++ uri ++ ": " ++ e),
                     emitted ++ [FetchEvent.pull uri])
      | .ok _ => (.ok (), emitted ++ [FetchEvent.pull uri])
  else
    (.error ("Unsupported registry type: " ++ registryType), [])

/-- C9: whenever GHCR credential resolution succeeds, a `fetchImage`
call with a non-empty output argument writes the credential mapping —
including the base64-encoded `username:token` material — to that path
(mode 0600, parent directory created with mode 0700) before the
registry pull happens; with an empty output argument the same mapping
is printed to standard output instead, again before the pull.  Either
way the secrets leave the process on every such invocation,
independent of the pull outcome. -/
theorem fetchImage_emits_credentials (output uri : String) (creds : Credentials)
    (po : Except String Unit)
    (hu : creds.githubUsername ≠ []) (ht : creds.githubToken ≠ [])
    (hout : output ≠ "") :
    (fetchImage "ghcr" output uri creds po).2 =
      [FetchEvent.mkdirAll (dirOf output) 0o700,
       FetchEvent.writeFile output
         [("ghcr.io", b64Encode (creds.githubUsername ++ 58 :: creds.githubToken))] 0o600,
       FetchEvent.pull uri] ∧
    (fetchImage "ghcr" "" uri creds po).2 =
      [FetchEvent.printOut
         [("ghcr.io", b64Encode (creds.githubUsername ++ 58 :: creds.githubToken))],
       FetchEvent.pull uri] := by
  cases po with
  | error e => simp [fetchImage, getGHCRAuth, hu, ht, hout]
  | ok u => simp [fetchImage, getGHCRAuth, hu, ht, hout]

/-- Witness for C9: username byte `u`, token byte `t`, output path
`run-5`, and a failing pull — the secrets are emitted regardless. -/
theorem fetchImage_emits_credentials_witness :
    (fetchImage "ghcr" "run-5" "ghcr.io/a/b:v1"
        { githubUsername := [117], githubToken := [116] } (.error "x")).2 =
      [FetchEvent.mkdirAll (dirOf "run-5") 0o700,
       FetchEvent.writeFile "run-5" [("ghcr.io", b64Encode ([117] ++ 58 :: [116]))] 0o600,
       FetchEvent.pull "ghcr.io/a/b:v1"] ∧
    (fetchImage "ghcr" "" "ghcr.io/a/b:v1"
        { githubUsername := [117], githubToken := [116] } (.error "x")).2 =
      [FetchEvent.printOut [("ghcr.io", b64Encode ([117] ++ 58 :: [116]))],
       FetchEvent.pull "ghcr.io/a/b:v1"] :=
  fetchImage_emits_credentials "run-5" "ghcr.io/a/b:v1"
    { githubUsername := [117], githubToken := [116] } (.error "x")
    (by decide) (by decide) (by decide)

end OgTaskGrype
